import Mathlib

/-!
Shallow embedding of the entry/tag data-access layer of the WorldBuilder
repository (`backend_logic.py` together with the schema declared in
`database_schema.py`).

The database state is modelled explicitly: each category table is a list of
rows, the tag index is a list of tag rows, and the `world` table is a list of
world rows (queried with `.first()`).  A SQLAlchemy session is a pair of the
last committed state and the current (pending) state; `commit` publishes the
current state and `rollback` restores the committed one.  Every backend
function wraps its body in `try/except Exception`: an exception is therefore
never propagated to the caller — the handler prints, rolls back where the
source does, and the function returns normally.  The outcome types below
record which of these paths was taken; the `raised` constructors exist so
that "the error propagates to the caller" is statable, but the definitions
never produce them, exactly as the blanket `except` never re-raises.

Unmodelled, because no claim exercises them: SQL NOT NULL constraint
failures, non-string values stored in string columns, and the possibility of
resolving a tag location whose category component is `"tags"` or `"world"`
(locations written by `add_data_to_table` always name the insert's own
table, and inserting into `"tags"`/`"world"` fails at the constructor).
-/

namespace WorldBuilder

/-- A SQL value as it appears in a row: NULL, a text/string value, an
integer (the surrogate `id`), or a binary blob. -/
inductive Value where
  | vNull : Value
  | vStr : String → Value
  | vInt : Nat → Value
  | vBlob : List Nat → Value
deriving DecidableEq, Repr

/-- A Python dict mapping field names to values, in insertion order. -/
abbrev Fields := List (String × Value)

/-- One row of a category table: the autoincrement surrogate `id` plus the
user columns of the table (every declared column is present; columns not
supplied at construction hold `vNull`). -/
structure Rec where
  id : Nat
  fields : Fields
deriving DecidableEq, Repr

/-- One row of the `tags` table (`database_schema.py`, class `Tag`). -/
structure TagRow where
  id : Nat
  entry_name : String
  entry_location : String
deriving DecidableEq, Repr

/-- One row of the `world` table (`database_schema.py`, class `World`). -/
structure WorldRow where
  name : String
  world_map : Option (List Nat)
deriving DecidableEq, Repr

/-- The persisted state of one world database. -/
structure DB where
  tables : List (String × List Rec)
  tags : List TagRow
  world : List WorldRow
deriving DecidableEq, Repr

/-- A SQLAlchemy session: the last committed database state and the current
state including pending (flushed but uncommitted) changes.  Queries run
against `current` (autoflush). -/
structure Session where
  committed : DB
  current : DB
deriving DecidableEq, Repr

/-- Embeds `session.commit()`. -/
def commit (s : Session) : Session := { s with committed := s.current }

/-- Embeds `session.rollback()`: discard everything since the last commit. -/
def rollback (s : Session) : Session := { s with current := s.committed }

/-- Dict/attribute update: replace the binding for `k` if present (keeping
its position), append it otherwise.  This is both Python dict assignment and
`setattr` on a mapped row. -/
def updateAssoc : Fields → String → Value → Fields
  | [], k, v => [(k, v)]
  | (k', v') :: rest, k, v =>
      if k' = k then (k, v) :: rest else (k', v') :: updateAssoc rest k v

/-- The rows of a category table (absent table name: no rows). -/
def DB.rows (db : DB) (t : String) : List Rec :=
  (db.tables.lookup t).getD []

/-- Generic association-list overwrite used to put a table back. -/
def setTable : List (String × List Rec) → String → List Rec → List (String × List Rec)
  | [], k, v => [(k, v)]
  | (k', v') :: rest, k, v =>
      if k' = k then (k, v) :: rest else (k', v') :: setTable rest k v

/-- Replace the rows of one category table. -/
def DB.setRows (db : DB) (t : String) (rs : List Rec) : DB :=
  { db with tables := setTable db.tables t rs }

/-- Largest `id` in a category table (0 when empty).  SQLite assigns the
next autoincrement id as this plus one, and
`query(cls.id).order_by(cls.id.desc()).first()` returns exactly this value
on a nonempty table. -/
def maxRecId (rs : List Rec) : Nat :=
  rs.foldl (fun m r => max m r.id) 0

/-- Largest `id` in the tags table (0 when empty). -/
def maxTagId (ts : List TagRow) : Nat :=
  ts.foldl (fun m t => max m t.id) 0

/-- The keys of `WorldBuilder.table_classes` in `database_schema.py`. -/
def table_classes : List String :=
  ["tags", "world", "planes", "continents", "regions", "countries", "cities",
   "historical_events", "religions", "characters", "deities", "enemies",
   "items", "quests"]

/-- Embeds `WorldBuilder.get_table_class`: `self.table_classes.get(table_name)` —
`none` for an unregistered name. -/
def get_table_class (t : String) : Option String :=
  if t ∈ table_classes then some t else none

/-- The user columns (everything but `id`) of each category table, in
declaration order from `database_schema.py`.  The structural tables `tags`
and `world` expose no user columns here: constructing one of them with
category-record keyword arguments raises `TypeError`, which the empty list
reproduces. -/
def table_columns : String → List String
  | "planes" => ["name", "description", "tags", "image_data"]
  | "continents" => ["name", "description", "tags", "image_data"]
  | "regions" => ["name", "description", "tags", "image_data"]
  | "countries" => ["name", "description", "tags", "image_data"]
  | "cities" => ["name", "description", "tags", "image_data"]
  | "historical_events" => ["name", "description", "tags", "image_data"]
  | "religions" => ["name", "description", "tags", "image_data"]
  | "characters" => ["name", "description", "stats", "tags", "image_data"]
  | "deities" => ["name", "description", "stats", "tags", "image_data"]
  | "enemies" => ["name", "description", "stats", "tags", "image_data"]
  | "items" => ["name", "description", "tags", "image_data"]
  | "quests" => ["name", "description", "tags"]
  | _ => []

/-- Embeds `main_table_class(**data_dict)`: builds a row with every declared user
column, taking supplied values and `NULL` for the rest; raises `TypeError`
(`none`) when a keyword is not a column of the table. -/
def mkRec (tname : String) (rid : Nat) (data : Fields) : Option Rec :=
  if data.all (fun kv => kv.1 ∈ table_columns tname) then
    some ⟨rid, (table_columns tname).map (fun c => (c, (data.lookup c).getD .vNull))⟩
  else none

/-- Python `str.split(sep)` for a single-character separator, on character
lists: splits at every occurrence and keeps empty pieces, so the result is
never empty and splitting the empty string gives one empty piece. -/
def splitCharList (sep : Char) : List Char → List (List Char)
  | [] => [[]]
  | c :: rest =>
      let r := splitCharList sep rest
      if c = sep then [] :: r
      else
        match r with
        | [] => [[c]]
        | g :: gs => (c :: g) :: gs

/-- Python `s.split(sep)` for a one-character separator. -/
def pySplit (sep : Char) (s : String) : List String :=
  (splitCharList sep s.toList).map (fun cs => String.mk cs)

/-- The numeric value of a decimal digit character, `none` otherwise. -/
def digitVal? (c : Char) : Option Nat :=
  if c = '0' then some 0 else if c = '1' then some 1
  else if c = '2' then some 2 else if c = '3' then some 3
  else if c = '4' then some 4 else if c = '5' then some 5
  else if c = '6' then some 6 else if c = '7' then some 7
  else if c = '8' then some 8 else if c = '9' then some 9 else none

/-- Accumulate decimal digits left to right; fail on a non-digit. -/
def natFromDigits : List Char → Nat → Option Nat
  | [], acc => some acc
  | c :: cs, acc =>
      match digitVal? c with
      | some d => natFromDigits cs (acc * 10 + d)
      | none => none

/-- SQLite's comparison of an INTEGER column against a text id: the text is
converted to a number when it is all decimal digits, and matches nothing
otherwise.  Locations written by `add_data_to_table` always carry a plain
decimal id, for which this agrees with Python/SQLite behaviour. -/
def textToId? (s : String) : Option Nat :=
  match s.toList with
  | [] => none
  | l => natFromDigits l 0

/-- An exception raised inside a backend function's `try` block. -/
inductive Exc where
  | unmappedClass : Exc
  | keyError : String → Exc
  | typeError : Exc
  | attributeError : Exc
  | valueError : Exc
  | storageError : Exc
deriving DecidableEq, Repr

/-- How a call to `add_data_to_table` finished.  The function itself always
returns `None` in Python; `caught e` records that exception `e` was handled
by the blanket `except` (printed and rolled back, nothing reaches the
caller), while `raised e` — propagation to the caller — is never produced,
since `except Exception` catches everything. -/
inductive AddOutcome where
  | updated : AddOutcome
  | notUpdated : AddOutcome
  | inserted : Nat → AddOutcome
  | insertedNoLastId : AddOutcome
  | caught : Exc → AddOutcome
  | raised : Exc → AddOutcome
deriving DecidableEq, Repr

/-- The tag-insertion loop of `add_data_to_table`: one iteration per label
of `data_dict['tags'].split(",")`, each adding a tag row whose `entry_name`
is the record's own name and whose `entry_location` is the fixed
`"<table>/<last_id>"` string (the label itself is only printed).  `failAt`
injects a storage failure at the given iteration index, modelling a forced
tag-insertion failure; the resulting exception aborts the loop. -/
def tagLoop (failAt : Nat → Bool) (nm loc : String) :
    Nat → Nat → DB → DB × Option Exc
  | 0, _, db => (db, none)
  | n + 1, i, db =>
      if failAt i then (db, some .storageError)
      else
        let tid := maxTagId db.tags + 1
        tagLoop failAt nm loc n (i + 1)
          { db with tags := db.tags ++ [⟨tid, nm, loc⟩] }

/-- Embeds `backend_logic.add_data_to_table`.  `update_data` is the user's answer
to the "Entry already exists" yes/no prompt; `failAt` injects tag-phase
storage failures (constantly `false` for an undisturbed run). -/
def add_data_to_table (s : Session) (table_name : String) (data : Fields)
    (update_data : Bool) (failAt : Nat → Bool) : Session × AddOutcome :=
  match get_table_class table_name with
  | none => (rollback s, .caught .unmappedClass)
  | some _ =>
    match data.lookup "name" with
    | none => (rollback s, .caught (.keyError "name"))
    | some nameVal =>
      let rows := s.current.rows table_name
      match rows.find? (fun r => r.fields.lookup "name" == some nameVal) with
      | some existing =>
          if update_data then
            let updated : Rec :=
              ⟨existing.id, data.foldl (fun fs kv => updateAssoc fs kv.1 kv.2) existing.fields⟩
            let rows' := rows.map (fun r => if r.id = existing.id then updated else r)
            (commit { s with current := s.current.setRows table_name rows' }, .updated)
          else (s, .notUpdated)
      | none =>
          match mkRec table_name (maxRecId rows + 1) data with
          | none => (rollback s, .caught .typeError)
          | some newRec =>
            let s := commit { s with current := s.current.setRows table_name (rows ++ [newRec]) }
            let last_id := maxRecId (s.current.rows table_name)
            if last_id = 0 then (s, .insertedNoLastId)
            else
              match data.lookup "tags" with
              | none => (rollback s, .caught (.keyError "tags"))
              | some (.vStr tstr) =>
                  match nameVal with
                  | .vStr nm =>
                      let labels := pySplit ',' tstr
                      let loc := table_name ++ "/" ++ toString last_id
                      let res := tagLoop failAt nm loc labels.length 0 s.current
                      match res.2 with
                      | some e => (rollback { s with current := res.1 }, .caught e)
                      | none => (commit { s with current := res.1 }, .inserted last_id)
                  | _ => (rollback s, .caught .typeError)
              | some _ => (rollback s, .caught .attributeError)

/-- How a call to `remove_entry` finished. -/
inductive RemoveOutcome where
  | removed : RemoveOutcome
  | notFound : RemoveOutcome
  | caught : Exc → RemoveOutcome
deriving DecidableEq, Repr

/-- Delete the first row equal to `victim` (SQLAlchemy `session.delete` on
the identity found by the query). -/
def deleteFirst (victim : Rec) : List Rec → List Rec
  | [] => []
  | r :: rest => if r = victim then rest else r :: deleteFirst victim rest

/-- Embeds `backend_logic.remove_entry`: delete the first row of `table_name`
whose `name` equals `entry_name`; an absent name only prints "not found". -/
def remove_entry (s : Session) (table_name : String) (entry_name : String) :
    Session × RemoveOutcome :=
  match get_table_class table_name with
  | none => (rollback s, .caught .unmappedClass)
  | some _ =>
    let rows := s.current.rows table_name
    match rows.find? (fun r => r.fields.lookup "name" == some (.vStr entry_name)) with
    | some victim =>
        (commit { s with current := s.current.setRows table_name (deleteFirst victim rows) },
         .removed)
    | none => (s, .notFound)

/-- Embeds `backend_logic.get_entry_names`: the `name` column of every row of the
table, in storage order; an unregistered table yields `[]`. -/
def get_entry_names (s : Session) (table_name : String) : List Value :=
  match get_table_class table_name with
  | none => []
  | some _ => (s.current.rows table_name).map (fun r => (r.fields.lookup "name").getD .vNull)

/-- The `__dict__` of a queried row after `pop("_sa_instance_state")`: the
surrogate `id` and every user column. -/
def recDict (r : Rec) : Fields :=
  ("id", Value.vInt r.id) :: r.fields

/-- Embeds `backend_logic.get_data_for_entry`: resolve `entry_name` through the
first tag row with that `entry_name`, parse its `entry_location` as
`"<category>/<id>"`, and fetch that row's columns.  Every failure (no tag
row, malformed location, unknown category, missing id) yields `none`: the
`ValueError`/query exceptions are caught by the function's own handler,
which returns `None`. -/
def get_data_for_entry (s : Session) (entry_name : String) : Option Fields :=
  match s.current.tags.find? (fun t => t.entry_name == entry_name) with
  | none => none
  | some t =>
      match pySplit '/' t.entry_location with
      | [cat, idStr] =>
          match get_table_class cat with
          | none => none
          | some _ =>
              match textToId? idStr with
              | none => none
              | some n =>
                  match (s.current.rows cat).find? (fun r => r.id = n) with
                  | some r => some (recDict r)
                  | none => none
      | _ => none

/-- Embeds `backend_logic.get_tag_location`: the category component of the first
tag row whose `entry_name` matches.  When no tag row matches, the Python
body dereferences `None` and the handler returns the empty list — modelled
as `none`. -/
def get_tag_location (s : Session) (entry_name : String) : Option String :=
  match s.current.tags.find? (fun t => t.entry_name == entry_name) with
  | none => none
  | some t => some ((pySplit '/' t.entry_location).headD "")

/-- How a world-map write finished; `raised` (propagation to the caller) is
never produced because the blanket `except` swallows the failure. -/
inductive MapOutcome where
  | ok : MapOutcome
  | caught : Exc → MapOutcome
  | raised : Exc → MapOutcome
deriving DecidableEq, Repr

/-- Embeds `backend_logic.add_world_map`: overwrite `world_map` on the first row
of the `world` table.  With no row, `entry.world_map = ...` raises
`AttributeError`, which the handler catches and rolls back — the caller
sees a normal return. -/
def add_world_map (s : Session) (image_data : List Nat) : Session × MapOutcome :=
  match s.current.world with
  | [] => (rollback s, .caught .attributeError)
  | w :: ws =>
      (commit { s with current := { s.current with world := { w with world_map := some image_data } :: ws } },
       .ok)

/-- Embeds `backend_logic.veiw_world_map` (source spelling): the `world_map` of
the first `world` row.  With no row the `AttributeError` is caught and the
function falls through to return `None`, indistinguishable from a row whose
map is NULL — both are `none` here. -/
def veiw_world_map (s : Session) : Option (List Nat) :=
  match s.current.world with
  | [] => none
  | w :: _ => w.world_map

/-- Embeds `backend_logic.filter_tag_list_by_table`: collect the tag rows whose
`entry_name` lies in `tag_list`; with the sentinel table name
`'all_categories'` return every matched label, otherwise only those whose
`entry_location` has the given category component.  This function has no
`try` block. -/
def filter_tag_list_by_table (s : Session) (tag_list : List String)
    (table_name : String) : List String :=
  let all_tags := s.current.tags.filter (fun t => tag_list.contains t.entry_name)
  if table_name = "all_categories" then all_tags.map (fun t => t.entry_name)
  else
    (all_tags.filter (fun t => (pySplit '/' t.entry_location).headD "" == table_name)).map
      (fun t => t.entry_name)

/-- The tag rows inserted by an undisturbed run of the tag loop: `n` rows
with successive ids above `m`, all naming the saved record. -/
def freshTagRows (nm loc : String) : Nat → Nat → List TagRow
  | _, 0 => []
  | m, k + 1 => ⟨m + 1, nm, loc⟩ :: freshTagRows nm loc (m + 1) k

/-- The row created by a successful insert of `data` into `cat`. -/
def insRec (s : Session) (cat : String) (data : Fields) : Rec :=
  ⟨maxRecId (s.current.rows cat) + 1,
   (table_columns cat).map (fun c => (c, (data.lookup c).getD Value.vNull))⟩

/-- The database after the record-insert commit (record present, tags not
yet touched). -/
def insRecDB (s : Session) (cat : String) (data : Fields) : DB :=
  s.current.setRows cat (s.current.rows cat ++ [insRec s cat data])

/-- The database after a fully successful insert: the new record plus one
fresh tag row per comma-separated label. -/
def insDoneDB (s : Session) (cat : String) (data : Fields) (nm tstr : String) : DB :=
  { insRecDB s cat data with
    tags := s.current.tags ++
      freshTagRows nm (cat ++ "/" ++ toString (maxRecId (s.current.rows cat) + 1))
        (maxTagId s.current.tags) (pySplit ',' tstr).length }

/-- A fresh world database as `create_database` leaves it: every category
table empty, no tag rows, one world row holding the world's name. -/
def baseDB : DB :=
  ⟨[("planes", []), ("continents", []), ("regions", []), ("countries", []),
    ("cities", []), ("historical_events", []), ("religions", []), ("characters", []),
    ("deities", []), ("enemies", []), ("items", []), ("quests", [])],
   [], [⟨"Aldara", none⟩]⟩

/-- A quiescent session on the fresh database (no pending changes). -/
def baseSession : Session := ⟨baseDB, baseDB⟩

/-- A session whose database has no `world` row at all. -/
def noWorldSession : Session :=
  ⟨⟨[("items", [])], [], []⟩, ⟨[("items", [])], [], []⟩⟩

/-- A session holding two tag rows resolving to different categories, as in
the spec's filter example. -/
def twoTagSession : Session :=
  ⟨⟨[], [⟨1, "x", "items/1"⟩, ⟨2, "y", "quests/2"⟩], []⟩,
   ⟨[], [⟨1, "x", "items/1"⟩, ⟨2, "y", "quests/2"⟩], []⟩⟩

/-- One `items` record used by the duplicate-tag scenario. -/
def bladeRec : Rec :=
  ⟨1, [("name", Value.vStr "Blade"), ("description", Value.vStr "sharp"),
       ("tags", Value.vStr "steel"), ("image_data", Value.vNull)]⟩

/-- A session where the same entry name owns two tag rows that resolve to
different categories; storage order puts the `items` row first. -/
def dupTagSession : Session :=
  ⟨⟨[("items", [bladeRec]), ("quests", [⟨2, [("name", Value.vStr "Blade")]⟩])],
    [⟨1, "Blade", "items/1"⟩, ⟨2, "Blade", "quests/2"⟩], []⟩,
   ⟨[("items", [bladeRec]), ("quests", [⟨2, [("name", Value.vStr "Blade")]⟩])],
    [⟨1, "Blade", "items/1"⟩, ⟨2, "Blade", "quests/2"⟩], []⟩⟩

/-! ### Plumbing lemmas -/

theorem rollback_eq_self {s : Session} (h : s.current = s.committed) :
    rollback s = s := by
  cases s with
  | mk c cur => simp only [rollback] at h ⊢; simp [h]

theorem get_table_class_eq_some {t : String} (h : t ∈ table_classes) :
    get_table_class t = some t := by
  simp [get_table_class, h]

theorem lookup_setTable_self (l : List (String × List Rec)) (k : String) (v : List Rec) :
    (setTable l k v).lookup k = some v := by
  induction l with
  | nil => simp [setTable, List.lookup]
  | cons hd tl ih =>
      obtain ⟨k', v'⟩ := hd
      by_cases hk : k' = k
      · simp [setTable, hk, List.lookup_cons]
      · simp [setTable, hk, List.lookup_cons, beq_false_of_ne (Ne.symm hk), ih]

theorem rows_setRows_self (db : DB) (t : String) (rs : List Rec) :
    (db.setRows t rs).rows t = rs := by
  simp [DB.setRows, DB.rows, lookup_setTable_self]

theorem setRows_tags (db : DB) (t : String) (rs : List Rec) :
    (db.setRows t rs).tags = db.tags := rfl

theorem setRows_world (db : DB) (t : String) (rs : List Rec) :
    (db.setRows t rs).world = db.world := rfl

theorem maxRecId_append_single (rs : List Rec) (r : Rec) :
    maxRecId (rs ++ [r]) = max (maxRecId rs) r.id := by
  simp [maxRecId, List.foldl_append]

theorem maxTagId_append_single (ts : List TagRow) (t : TagRow) :
    maxTagId (ts ++ [t]) = max (maxTagId ts) t.id := by
  simp [maxTagId, List.foldl_append]

theorem le_foldl_max (rs : List Rec) (init : Nat) :
    init ≤ rs.foldl (fun m r => max m r.id) init := by
  induction rs generalizing init with
  | nil => exact Nat.le_refl _
  | cons hd tl ih =>
      exact Nat.le_trans (Nat.le_max_left init hd.id) (ih (max init hd.id))

theorem mem_le_foldl_max {r : Rec} :
    ∀ (rs : List Rec) (init : Nat), r ∈ rs →
      r.id ≤ rs.foldl (fun m x => max m x.id) init := by
  intro rs
  induction rs with
  | nil => intro init h; cases h
  | cons hd tl ih =>
      intro init h
      rcases List.mem_cons.mp h with rfl | hmem
      · exact Nat.le_trans (Nat.le_trans (Nat.le_max_right init r.id) (Nat.le_refl _))
          (le_foldl_max tl _)
      · exact ih _ hmem

theorem mem_le_maxRecId {r : Rec} {rs : List Rec} (h : r ∈ rs) :
    r.id ≤ maxRecId rs :=
  mem_le_foldl_max rs 0 h

theorem lookup_map_cols {cols : List String} (g : String → Value) {k : String}
    (hk : k ∈ cols) :
    (cols.map (fun c => (c, g c))).lookup k = some (g k) :=
  List.lookup_graph g hk

theorem splitCharList_ne_nil (sep : Char) (l : List Char) :
    splitCharList sep l ≠ [] := by
  cases l with
  | nil => simp [splitCharList]
  | cons c rest =>
      simp only [splitCharList]
      by_cases h : c = sep
      · simp [h]
      · simp only [h, if_false]
        cases splitCharList sep rest with
        | nil => simp
        | cons g gs => simp

theorem pySplit_length_pos (sep : Char) (s : String) :
    0 < (pySplit sep s).length := by
  simp only [pySplit, List.length_map]
  exact List.length_pos.mpr (splitCharList_ne_nil sep s.toList)

theorem tagLoop_no_fail (nm loc : String) (n : Nat) :
    ∀ (i : Nat) (db : DB),
      tagLoop (fun _ => false) nm loc n i db =
        ({ db with tags := db.tags ++ freshTagRows nm loc (maxTagId db.tags) n }, none) := by
  induction n with
  | zero => intro i db; simp [tagLoop, freshTagRows]
  | succ k ih =>
      intro i db
      rw [tagLoop, if_neg (by simp)]
      rw [ih (i + 1)]
      have hmax : maxTagId (db.tags ++ [⟨maxTagId db.tags + 1, nm, loc⟩]) =
          maxTagId db.tags + 1 := by
        rw [maxTagId_append_single]
        exact Nat.max_eq_right (Nat.le_succ _)
      simp only [hmax, freshTagRows, List.append_assoc, List.singleton_append]

theorem tagLoop_snd_err (failAt : Nat → Bool) (nm loc : String) (n : Nat) :
    ∀ (i : Nat) (db : DB), (∃ j, j < n ∧ failAt (i + j) = true) →
      (tagLoop failAt nm loc n i db).2 = some Exc.storageError := by
  induction n with
  | zero =>
      intro i db h
      obtain ⟨j, hj, _⟩ := h
      cases hj
  | succ k ih =>
      intro i db h
      by_cases hf : failAt i = true
      · rw [tagLoop, if_pos hf]
      · obtain ⟨j, hj, hfj⟩ := h
        cases j with
        | zero => simp at hfj; exact absurd hfj hf
        | succ j' =>
            rw [tagLoop, if_neg hf]
            exact ih (i + 1) _ ⟨j', Nat.lt_of_succ_lt_succ hj, by
              have : i + 1 + j' = i + (j' + 1) := by omega
              rw [this]; exact hfj⟩

theorem lookup_updateAssoc_self (fs : Fields) (k : String) (v : Value) :
    (updateAssoc fs k v).lookup k = some v := by
  induction fs with
  | nil => simp [updateAssoc, List.lookup]
  | cons hd tl ih =>
      obtain ⟨k', v'⟩ := hd
      by_cases hk : k' = k
      · simp [updateAssoc, hk, List.lookup_cons]
      · simp [updateAssoc, hk, List.lookup_cons, beq_false_of_ne (Ne.symm hk), ih]

theorem lookup_updateAssoc_ne (fs : Fields) {k k' : String} (v : Value) (h : k' ≠ k) :
    (updateAssoc fs k v).lookup k' = fs.lookup k' := by
  induction fs with
  | nil => simp [updateAssoc, List.lookup_cons, beq_false_of_ne h]
  | cons hd tl ih =>
      obtain ⟨k₀, v₀⟩ := hd
      by_cases hk : k₀ = k
      · subst hk; simp [updateAssoc, List.lookup_cons, beq_false_of_ne h]
      · simp only [updateAssoc, if_neg hk]
        by_cases hk' : k₀ = k'
        · subst hk'; simp [List.lookup_cons]
        · simp [List.lookup_cons, beq_false_of_ne (Ne.symm hk'), ih]

theorem lookup_foldl_updateAssoc_not_mem (data : Fields) :
    ∀ (fs : Fields) (k : String), k ∉ data.map Prod.fst →
      (data.foldl (fun a kv => updateAssoc a kv.1 kv.2) fs).lookup k = fs.lookup k := by
  induction data with
  | nil => intro fs k _; rfl
  | cons hd tl ih =>
      intro fs k hk
      obtain ⟨k₀, v₀⟩ := hd
      simp only [List.map_cons, List.mem_cons, not_or] at hk
      obtain ⟨hk₁, hk₂⟩ := hk
      simp only [List.foldl_cons]
      rw [ih _ k hk₂, lookup_updateAssoc_ne fs v₀ hk₁]

theorem lookup_foldl_updateAssoc_some (data : Fields) :
    ∀ (fs : Fields) (k : String) (v : Value), (data.map Prod.fst).Nodup →
      data.lookup k = some v →
      (data.foldl (fun a kv => updateAssoc a kv.1 kv.2) fs).lookup k = some v := by
  induction data with
  | nil => intro fs k v _ h; cases h
  | cons hd tl ih =>
      intro fs k v hnd hlk
      obtain ⟨k₀, v₀⟩ := hd
      simp only [List.map_cons, List.nodup_cons] at hnd
      obtain ⟨hk₀, hnd'⟩ := hnd
      simp only [List.foldl_cons]
      by_cases hk : k = k₀
      · subst hk
        simp only [List.lookup_cons, beq_self_eq_true] at hlk
        cases hlk
        rw [lookup_foldl_updateAssoc_not_mem tl _ k hk₀,
          lookup_updateAssoc_self]
      · rw [List.lookup_cons, beq_false_of_ne hk] at hlk
        exact ih _ k v hnd' hlk

theorem lookup_foldl_updateAssoc_none (data : Fields) (fs : Fields) (k : String)
    (h : data.lookup k = none) :
    (data.foldl (fun a kv => updateAssoc a kv.1 kv.2) fs).lookup k = fs.lookup k := by
  apply lookup_foldl_updateAssoc_not_mem
  intro hmem
  obtain ⟨⟨k', v'⟩, hmem', hfst⟩ := List.mem_map.mp hmem
  subst hfst
  rw [List.lookup_eq_none_iff] at h
  have hcontra := h ⟨k', v'⟩ hmem'
  simp at hcontra

theorem add_insert_no_fail (s : Session) (cat : String) (data : Fields) (u : Bool)
    (nm tstr : String)
    (hcat : cat ∈ table_classes)
    (hname : data.lookup "name" = some (Value.vStr nm))
    (hfresh : (s.current.rows cat).find?
        (fun r => r.fields.lookup "name" == some (Value.vStr nm)) = none)
    (hcols : data.all (fun kv => decide (kv.1 ∈ table_columns cat)) = true)
    (htags : data.lookup "tags" = some (Value.vStr tstr)) :
    add_data_to_table s cat data u (fun _ => false) =
      (⟨insDoneDB s cat data nm tstr, insDoneDB s cat data nm tstr⟩,
       AddOutcome.inserted (maxRecId (s.current.rows cat) + 1)) := by
  rw [add_data_to_table, get_table_class_eq_some hcat]
  simp only [hname, hfresh]
  rw [mkRec, if_pos hcols]
  simp only [commit, rows_setRows_self, maxRecId_append_single]
  rw [Nat.max_eq_right (Nat.le_succ _)]
  rw [if_neg (Nat.succ_ne_zero _)]
  simp only [htags, hname]
  rw [tagLoop_no_fail]
  simp only [setRows_tags]
  rfl

theorem add_insert_tag_fail (s : Session) (cat : String) (data : Fields) (u : Bool)
    (failAt : Nat → Bool) (nm tstr : String)
    (hcat : cat ∈ table_classes)
    (hname : data.lookup "name" = some (Value.vStr nm))
    (hfresh : (s.current.rows cat).find?
        (fun r => r.fields.lookup "name" == some (Value.vStr nm)) = none)
    (hcols : data.all (fun kv => decide (kv.1 ∈ table_columns cat)) = true)
    (htags : data.lookup "tags" = some (Value.vStr tstr))
    (hfail : ∃ j, j < (pySplit ',' tstr).length ∧ failAt j = true) :
    add_data_to_table s cat data u failAt =
      (⟨insRecDB s cat data, insRecDB s cat data⟩,
       AddOutcome.caught Exc.storageError) := by
  rw [add_data_to_table, get_table_class_eq_some hcat]
  simp only [hname, hfresh]
  rw [mkRec, if_pos hcols]
  simp only [commit, rows_setRows_self, maxRecId_append_single]
  rw [Nat.max_eq_right (Nat.le_succ _)]
  rw [if_neg (Nat.succ_ne_zero _)]
  simp only [htags, hname]
  rw [tagLoop_snd_err _ _ _ _ 0 _ (by simpa using hfail)]
  rfl

theorem add_insert_no_tags_key (s : Session) (cat : String) (data : Fields) (u : Bool)
    (failAt : Nat → Bool) (nm : String)
    (hcat : cat ∈ table_classes)
    (hname : data.lookup "name" = some (Value.vStr nm))
    (hfresh : (s.current.rows cat).find?
        (fun r => r.fields.lookup "name" == some (Value.vStr nm)) = none)
    (hcols : data.all (fun kv => decide (kv.1 ∈ table_columns cat)) = true)
    (htags : data.lookup "tags" = none) :
    add_data_to_table s cat data u failAt =
      (⟨insRecDB s cat data, insRecDB s cat data⟩,
       AddOutcome.caught (Exc.keyError "tags")) := by
  rw [add_data_to_table, get_table_class_eq_some hcat]
  simp only [hname, hfresh]
  rw [mkRec, if_pos hcols]
  simp only [commit, rows_setRows_self, maxRecId_append_single]
  rw [Nat.max_eq_right (Nat.le_succ _)]
  rw [if_neg (Nat.succ_ne_zero _)]
  simp only [htags]
  rfl

theorem tags_insRecDB (s : Session) (cat : String) (data : Fields) :
    (insRecDB s cat data).tags = s.current.tags := rfl

theorem world_insRecDB (s : Session) (cat : String) (data : Fields) :
    (insRecDB s cat data).world = s.current.world := rfl

theorem rows_insRecDB (s : Session) (cat : String) (data : Fields) :
    (insRecDB s cat data).rows cat = s.current.rows cat ++ [insRec s cat data] :=
  rows_setRows_self _ _ _

theorem insRec_lookup (s : Session) (cat : String) (data : Fields) {c : String}
    (hc : c ∈ table_columns cat) :
    (insRec s cat data).fields.lookup c = some ((data.lookup c).getD Value.vNull) :=
  lookup_map_cols _ hc

theorem insRec_id (s : Session) (cat : String) (data : Fields) :
    (insRec s cat data).id = maxRecId (s.current.rows cat) + 1 := rfl

/-- A find-first over a list with a distinguished first match. -/
theorem find?_middle {α : Type} {p : α → Bool} {pre post : List α} {a : α}
    (hpre : ∀ x ∈ pre, ¬p x = true) (ha : p a = true) :
    (pre ++ a :: post).find? p = some a := by
  rw [List.find?_append, List.find?_eq_none.mpr hpre, List.find?_cons_of_pos _ ha]
  rfl

theorem deleteFirst_middle {pre post : List Rec} {r : Rec} (h : r ∉ pre) :
    deleteFirst r (pre ++ r :: post) = pre ++ post := by
  induction pre with
  | nil => simp [deleteFirst]
  | cons hd tl ih =>
      have hne : hd ≠ r := fun he => h (he ▸ List.mem_cons_self hd tl)
      simp only [List.cons_append, deleteFirst, if_neg hne, List.append_eq]
      rw [ih (fun hm => h (List.mem_cons_of_mem hd hm))]

/-- Running `add_data_to_table` on an existing name with the overwrite prompt
answered yes: the first row whose `name` matches is mutated field by field
and committed; nothing else changes. -/
theorem add_update (s : Session) (cat : String) (data : Fields)
    (failAt : Nat → Bool) (r : Rec) (pre post : List Rec) (nv : Value)
    (hcat : cat ∈ table_classes)
    (hname : data.lookup "name" = some nv)
    (hrows : s.current.rows cat = pre ++ r :: post)
    (hpre : ∀ x ∈ pre, x.fields.lookup "name" ≠ some nv)
    (hr : r.fields.lookup "name" = some nv)
    (hpreid : ∀ x ∈ pre, x.id ≠ r.id)
    (hpostid : ∀ x ∈ post, x.id ≠ r.id) :
    add_data_to_table s cat data true failAt =
      (⟨s.current.setRows cat
          (pre ++ ⟨r.id, data.foldl (fun fs kv => updateAssoc fs kv.1 kv.2) r.fields⟩ :: post),
        s.current.setRows cat
          (pre ++ ⟨r.id, data.foldl (fun fs kv => updateAssoc fs kv.1 kv.2) r.fields⟩ :: post)⟩,
       AddOutcome.updated) := by
  have hfind : (s.current.rows cat).find?
      (fun x => x.fields.lookup "name" == some nv) = some r := by
    rw [hrows]
    exact find?_middle
      (fun x hx => by simpa [beq_iff_eq] using hpre x hx)
      (by simpa [beq_iff_eq] using hr)
  rw [add_data_to_table, get_table_class_eq_some hcat]
  simp only [hname, hfind, if_true]
  have hmap : (s.current.rows cat).map
      (fun x => if x.id = r.id
        then (⟨r.id, data.foldl (fun fs kv => updateAssoc fs kv.1 kv.2) r.fields⟩ : Rec)
        else x) =
      pre ++ ⟨r.id, data.foldl (fun fs kv => updateAssoc fs kv.1 kv.2) r.fields⟩ :: post := by
    rw [hrows, List.map_append, List.map_cons, if_pos rfl]
    rw [List.map_congr_left (fun x hx => if_neg (hpreid x hx))]
    rw [List.map_congr_left (fun x hx => if_neg (hpostid x hx))]
    simp
  rw [hmap]
  rfl

/-! ### Claims -/

/-- C2 (counterexample): calling `add_data_to_table` with the unregistered
category `"weapons"` does not surface a validation error to the caller: the
exception raised by `session.query(None)` is caught by the function's own
handler (outcome `caught`, not `raised`) and the function returns normally
with the session rolled back. -/
theorem C2_counterexample :
    add_data_to_table baseSession "weapons"
        [("name", Value.vStr "Sword"), ("tags", Value.vStr "steel")] false (fun _ => false) =
      (baseSession, AddOutcome.caught Exc.unmappedClass) := by decide

/-- C2 (amended): for every unknown category, `add_data_to_table` applies
no writes (a quiescent session is returned unchanged) and the error is
swallowed inside the function — the caller receives a normal return, never
a propagated exception. -/
theorem C2_unknown_category_swallowed (s : Session) (cat : String) (data : Fields)
    (u : Bool) (failAt : Nat → Bool)
    (hcat : get_table_class cat = none) (hcons : s.current = s.committed) :
    add_data_to_table s cat data u failAt = (s, AddOutcome.caught Exc.unmappedClass) := by
  rw [add_data_to_table, hcat, rollback_eq_self hcons]

/-- C2 witness: the amended statement at a concrete unknown category. -/
theorem C2_witness :
    add_data_to_table baseSession "armory" [("name", Value.vStr "Pike")] true (fun _ => false) =
      (baseSession, AddOutcome.caught Exc.unmappedClass) :=
  C2_unknown_category_swallowed baseSession "armory"
    [("name", Value.vStr "Pike")] true (fun _ => false) (by decide) rfl

/-- C5: inserting a record with tags string "a,b,c" into a registered
table creates exactly three tag rows, each carrying the record's own name
and the location `"<category>/<new-id>"` of the new record, and the insert
reports the new id. -/
theorem C5_tag_fanout (s : Session) (cat : String) (data : Fields) (u : Bool)
    (nm : String)
    (hcat : cat ∈ table_classes)
    (hname : data.lookup "name" = some (Value.vStr nm))
    (hfresh : ∀ r ∈ s.current.rows cat, r.fields.lookup "name" ≠ some (Value.vStr nm))
    (hcols : data.all (fun kv => decide (kv.1 ∈ table_columns cat)) = true)
    (htags : data.lookup "tags" = some (Value.vStr "a,b,c")) :
    (add_data_to_table s cat data u (fun _ => false)).1.current.tags =
        s.current.tags ++
          [⟨maxTagId s.current.tags + 1, nm,
             cat ++ "/" ++ toString (maxRecId (s.current.rows cat) + 1)⟩,
           ⟨maxTagId s.current.tags + 2, nm,
             cat ++ "/" ++ toString (maxRecId (s.current.rows cat) + 1)⟩,
           ⟨maxTagId s.current.tags + 3, nm,
             cat ++ "/" ++ toString (maxRecId (s.current.rows cat) + 1)⟩] ∧
      (add_data_to_table s cat data u (fun _ => false)).2 =
        AddOutcome.inserted (maxRecId (s.current.rows cat) + 1) := by
  have hfind : (s.current.rows cat).find?
      (fun r => r.fields.lookup "name" == some (Value.vStr nm)) = none :=
    List.find?_eq_none.mpr (fun x hx => by simpa [beq_iff_eq] using hfresh x hx)
  rw [add_insert_no_fail s cat data u nm "a,b,c" hcat hname hfind hcols htags]
  refine ⟨?_, rfl⟩
  show (insDoneDB s cat data nm "a,b,c").tags = _
  rw [insDoneDB]
  have hlen : (pySplit ',' "a,b,c").length = 3 := by decide
  rw [hlen]
  simp only [tags_insRecDB, freshTagRows]

/-- C5 witness: the fan-out at a concrete insert into `items`. -/
theorem C5_witness :
    (add_data_to_table baseSession "items"
        [("name", Value.vStr "Lamp"), ("tags", Value.vStr "a,b,c")] false
        (fun _ => false)).1.current.tags =
        [⟨1, "Lamp", "items/1"⟩, ⟨2, "Lamp", "items/1"⟩, ⟨3, "Lamp", "items/1"⟩] ∧
      (add_data_to_table baseSession "items"
        [("name", Value.vStr "Lamp"), ("tags", Value.vStr "a,b,c")] false
        (fun _ => false)).2 = AddOutcome.inserted 1 :=
  C5_tag_fanout baseSession "items"
    [("name", Value.vStr "Lamp"), ("tags", Value.vStr "a,b,c")] false "Lamp"
    (by decide) (by decide) (by decide) (by decide) (by decide)

/-- C1 (counterexample): insert of "Lamp" into the empty `items` table with
every tag insertion forced to fail: the storage error is handled, yet the
category table still contains the new record afterwards — `get_entry_names`
lists "Lamp" — because the record was committed before the tag phase. -/
theorem C1_counterexample :
    (add_data_to_table baseSession "items"
        [("name", Value.vStr "Lamp"), ("tags", Value.vStr "light")] false (fun _ => true)).2 =
        AddOutcome.caught Exc.storageError ∧
      get_entry_names (add_data_to_table baseSession "items"
        [("name", Value.vStr "Lamp"), ("tags", Value.vStr "light")] false (fun _ => true)).1
        "items" = [Value.vStr "Lamp"] := by decide

/-- C1 (amended): a record insert and its tag-row inserts are not one
atomic unit.  The record is committed on its own before the tag loop, so
when a tag insertion fails the rollback only discards the tag writes: the
operation reports a caught storage error, `get_entry_names` afterwards
still contains the new record's name, and the tag table is exactly as
before the call. -/
theorem C1_insert_not_atomic (s : Session) (cat : String) (data : Fields) (u : Bool)
    (failAt : Nat → Bool) (nm tstr : String)
    (hcat : cat ∈ table_classes)
    (hmem : "name" ∈ table_columns cat)
    (hname : data.lookup "name" = some (Value.vStr nm))
    (hfresh : ∀ r ∈ s.current.rows cat, r.fields.lookup "name" ≠ some (Value.vStr nm))
    (hcols : data.all (fun kv => decide (kv.1 ∈ table_columns cat)) = true)
    (htags : data.lookup "tags" = some (Value.vStr tstr))
    (hfail : ∃ j, j < (pySplit ',' tstr).length ∧ failAt j = true) :
    (add_data_to_table s cat data u failAt).2 = AddOutcome.caught Exc.storageError ∧
      get_entry_names (add_data_to_table s cat data u failAt).1 cat =
        get_entry_names s cat ++ [Value.vStr nm] ∧
      (add_data_to_table s cat data u failAt).1.current.tags = s.current.tags := by
  have hfind : (s.current.rows cat).find?
      (fun r => r.fields.lookup "name" == some (Value.vStr nm)) = none :=
    List.find?_eq_none.mpr (fun x hx => by simpa [beq_iff_eq] using hfresh x hx)
  rw [add_insert_tag_fail s cat data u failAt nm tstr hcat hname hfind hcols htags hfail]
  refine ⟨rfl, ?_, rfl⟩
  show get_entry_names ⟨insRecDB s cat data, insRecDB s cat data⟩ cat = _
  rw [get_entry_names, get_table_class_eq_some hcat]
  rw [get_entry_names, get_table_class_eq_some hcat]
  show ((insRecDB s cat data).rows cat).map _ = _
  rw [rows_insRecDB, List.map_append]
  simp [insRec_lookup s cat data hmem, hname]

/-- C1 witness: the amended statement at the concrete failing insert of
"Vase" into a session already holding one record. -/
theorem C1_witness :
    (add_data_to_table baseSession "items"
        [("name", Value.vStr "Vase"), ("tags", Value.vStr "clay,old")] false
        (fun i => i == 1)).2 = AddOutcome.caught Exc.storageError ∧
      get_entry_names (add_data_to_table baseSession "items"
        [("name", Value.vStr "Vase"), ("tags", Value.vStr "clay,old")] false
        (fun i => i == 1)).1 "items" =
        get_entry_names baseSession "items" ++ [Value.vStr "Vase"] ∧
      (add_data_to_table baseSession "items"
        [("name", Value.vStr "Vase"), ("tags", Value.vStr "clay,old")] false
        (fun i => i == 1)).1.current.tags = baseSession.current.tags :=
  C1_insert_not_atomic baseSession "items"
    [("name", Value.vStr "Vase"), ("tags", Value.vStr "clay,old")] false
    (fun i => i == 1) "Vase" "clay,old"
    (by decide) (by decide) (by decide) (by decide) (by decide) (by decide)
    ⟨1, by decide⟩

/-- C4 (counterexample): a record saved with the empty tags string is not
tag-less: `"".split(",")` yields one empty label, so exactly one tag row is
created and `get_data_for_entry` resolves the record instead of returning
`none`. -/
theorem C4_counterexample :
    (add_data_to_table baseSession "items"
        [("name", Value.vStr "Orb"), ("tags", Value.vStr "")] false
        (fun _ => false)).1.current.tags = [⟨1, "Orb", "items/1"⟩] ∧
      get_data_for_entry (add_data_to_table baseSession "items"
        [("name", Value.vStr "Orb"), ("tags", Value.vStr "")] false
        (fun _ => false)).1 "Orb" ≠ none := by decide

/-- C4 (amended): `get_data_for_entry` resolves only names with at least
one tag row; but a record saved with an empty tags string still owns one
tag row (the empty string splits into a single empty label), so it remains
resolvable.  A record ends up with no tag rows only when its field mapping
lacks the `tags` key entirely: the record commit survives, the tag phase
dies with a caught KeyError, the tag table is unchanged, and
`get_data_for_entry` on that name returns `none`. -/
theorem C4_no_tags_unreachable (s : Session) (cat : String) (data : Fields) (u : Bool)
    (failAt : Nat → Bool) (nm : String)
    (hcat : cat ∈ table_classes)
    (hmem : "name" ∈ table_columns cat)
    (hname : data.lookup "name" = some (Value.vStr nm))
    (hfresh : ∀ r ∈ s.current.rows cat, r.fields.lookup "name" ≠ some (Value.vStr nm))
    (hcols : data.all (fun kv => decide (kv.1 ∈ table_columns cat)) = true)
    (htags : data.lookup "tags" = none)
    (hnotag : ∀ t ∈ s.current.tags, t.entry_name ≠ nm) :
    (add_data_to_table s cat data u failAt).2 =
        AddOutcome.caught (Exc.keyError "tags") ∧
      (add_data_to_table s cat data u failAt).1.current.tags = s.current.tags ∧
      get_entry_names (add_data_to_table s cat data u failAt).1 cat =
        get_entry_names s cat ++ [Value.vStr nm] ∧
      get_data_for_entry (add_data_to_table s cat data u failAt).1 nm = none := by
  have hfind : (s.current.rows cat).find?
      (fun r => r.fields.lookup "name" == some (Value.vStr nm)) = none :=
    List.find?_eq_none.mpr (fun x hx => by simpa [beq_iff_eq] using hfresh x hx)
  rw [add_insert_no_tags_key s cat data u failAt nm hcat hname hfind hcols htags]
  refine ⟨rfl, rfl, ?_, ?_⟩
  · show get_entry_names ⟨insRecDB s cat data, insRecDB s cat data⟩ cat = _
    rw [get_entry_names, get_table_class_eq_some hcat]
    rw [get_entry_names, get_table_class_eq_some hcat]
    show ((insRecDB s cat data).rows cat).map _ = _
    rw [rows_insRecDB, List.map_append]
    simp [insRec_lookup s cat data hmem, hname]
  · show get_data_for_entry ⟨insRecDB s cat data, insRecDB s cat data⟩ nm = none
    rw [get_data_for_entry]
    have : (insRecDB s cat data).tags.find? (fun t => t.entry_name == nm) = none :=
      List.find?_eq_none.mpr (fun t ht => by
        rw [tags_insRecDB] at ht
        simpa [beq_iff_eq] using hnotag t ht)
    rw [this]

/-- C4 witness: the amended statement at a concrete save whose field
mapping omits `tags`. -/
theorem C4_witness :
    (add_data_to_table baseSession "quests"
        [("name", Value.vStr "Hunt"), ("description", Value.vStr "d")] false
        (fun _ => false)).2 = AddOutcome.caught (Exc.keyError "tags") ∧
      (add_data_to_table baseSession "quests"
        [("name", Value.vStr "Hunt"), ("description", Value.vStr "d")] false
        (fun _ => false)).1.current.tags = baseSession.current.tags ∧
      get_entry_names (add_data_to_table baseSession "quests"
        [("name", Value.vStr "Hunt"), ("description", Value.vStr "d")] false
        (fun _ => false)).1 "quests" =
        get_entry_names baseSession "quests" ++ [Value.vStr "Hunt"] ∧
      get_data_for_entry (add_data_to_table baseSession "quests"
        [("name", Value.vStr "Hunt"), ("description", Value.vStr "d")] false
        (fun _ => false)).1 "Hunt" = none :=
  C4_no_tags_unreachable baseSession "quests"
    [("name", Value.vStr "Hunt"), ("description", Value.vStr "d")] false
    (fun _ => false) "Hunt"
    (by decide) (by decide) (by decide) (by decide) (by decide) (by decide) (by decide)

/-- C3 (counterexample): a fresh insert followed by `get_data_for_entry`
returns the stored mapping *plus* the surrogate `id` — only
`_sa_instance_state` is stripped, so the internal bookkeeping field `id` is
visible to the caller and the result is not equal to the saved fields. -/
theorem C3_counterexample :
    get_data_for_entry (add_data_to_table baseSession "items"
        [("name", Value.vStr "Ring"), ("description", Value.vStr "gold"),
         ("tags", Value.vStr "jewel"), ("image_data", Value.vBlob [7])] false
        (fun _ => false)).1 "Ring" =
      some [("id", Value.vInt 1), ("name", Value.vStr "Ring"),
            ("description", Value.vStr "gold"), ("tags", Value.vStr "jewel"),
            ("image_data", Value.vBlob [7])] := by decide

/-- C3 (amended): for every valid category and field mapping with a fresh
name and a tags string, the saved record read back through
`get_data_for_entry` agrees with the saved fields on every user column of
the category (columns omitted from the mapping read back as NULL), but the
returned mapping additionally carries the surrogate `id` as its first
entry — internal bookkeeping is not stripped. -/
theorem C3_roundtrip_plus_id (s : Session) (cat : String) (data : Fields) (u : Bool)
    (nm tstr : String)
    (hcat : cat ∈ table_classes)
    (hname : data.lookup "name" = some (Value.vStr nm))
    (hfresh : ∀ r ∈ s.current.rows cat, r.fields.lookup "name" ≠ some (Value.vStr nm))
    (hcols : data.all (fun kv => decide (kv.1 ∈ table_columns cat)) = true)
    (htags : data.lookup "tags" = some (Value.vStr tstr))
    (hnotag : ∀ t ∈ s.current.tags, t.entry_name ≠ nm)
    (hsplit : pySplit '/' (cat ++ "/" ++ toString (maxRecId (s.current.rows cat) + 1)) =
        [cat, toString (maxRecId (s.current.rows cat) + 1)])
    (hparse : textToId? (toString (maxRecId (s.current.rows cat) + 1)) =
        some (maxRecId (s.current.rows cat) + 1)) :
    get_data_for_entry (add_data_to_table s cat data u (fun _ => false)).1 nm =
      some (("id", Value.vInt (maxRecId (s.current.rows cat) + 1)) ::
        (table_columns cat).map (fun c => (c, (data.lookup c).getD Value.vNull))) := by
  have hfind0 : (s.current.rows cat).find?
      (fun r => r.fields.lookup "name" == some (Value.vStr nm)) = none :=
    List.find?_eq_none.mpr (fun x hx => by simpa [beq_iff_eq] using hfresh x hx)
  rw [add_insert_no_fail s cat data u nm tstr hcat hname hfind0 hcols htags]
  obtain ⟨k, hk⟩ : ∃ k, (pySplit ',' tstr).length = k + 1 :=
    ⟨(pySplit ',' tstr).length - 1, by have := pySplit_length_pos ',' tstr; omega⟩
  have htagfind : (insDoneDB s cat data nm tstr).tags.find? (fun t => t.entry_name == nm) =
      some ⟨maxTagId s.current.tags + 1, nm,
        cat ++ "/" ++ toString (maxRecId (s.current.rows cat) + 1)⟩ := by
    show (s.current.tags ++
        freshTagRows nm (cat ++ "/" ++ toString (maxRecId (s.current.rows cat) + 1))
          (maxTagId s.current.tags) (pySplit ',' tstr).length).find? _ = _
    rw [hk, List.find?_append,
      List.find?_eq_none.mpr (fun t ht => by simpa [beq_iff_eq] using hnotag t ht)]
    simp only [freshTagRows]
    rw [List.find?_cons_of_pos _ (by simp)]
    rfl
  have hrowfind : ((insDoneDB s cat data nm tstr).rows cat).find?
      (fun r => r.id = maxRecId (s.current.rows cat) + 1) = some (insRec s cat data) := by
    show ((insRecDB s cat data).rows cat).find? _ = _
    rw [rows_insRecDB, List.find?_append,
      List.find?_eq_none.mpr (fun r hr => by
        simp only [decide_eq_true_eq]
        have := mem_le_maxRecId hr
        omega),
      List.find?_cons_of_pos _ (by simp [insRec_id])]
    rfl
  show get_data_for_entry ⟨insDoneDB s cat data nm tstr, insDoneDB s cat data nm tstr⟩ nm = _
  rw [get_data_for_entry]
  simp only [htagfind, hsplit, get_table_class_eq_some hcat, hparse, hrowfind]
  rfl

/-- C3 witness: the amended round-trip at a concrete insert into `items`
(the stored fields come back with NULL for nothing, plus the id entry). -/
theorem C3_witness :
    get_data_for_entry (add_data_to_table baseSession "items"
        [("name", Value.vStr "Amulet"), ("description", Value.vStr "old"),
         ("tags", Value.vStr "magic,metal"), ("image_data", Value.vNull)] false
        (fun _ => false)).1 "Amulet" =
      some (("id", Value.vInt 1) ::
        (table_columns "items").map (fun c =>
          (c, (([("name", Value.vStr "Amulet"), ("description", Value.vStr "old"),
                ("tags", Value.vStr "magic,metal"),
                ("image_data", Value.vNull)] : Fields).lookup c).getD Value.vNull))) :=
  C3_roundtrip_plus_id baseSession "items"
    [("name", Value.vStr "Amulet"), ("description", Value.vStr "old"),
     ("tags", Value.vStr "magic,metal"), ("image_data", Value.vNull)] false
    "Amulet" "magic,metal"
    (by decide) (by decide) (by decide) (by decide) (by decide) (by decide)
    (by decide) (by decide)

/-- C6: overwrite-confirmed save onto an existing name mutates the one
matching record in place: the result has the second call's value for every
supplied key, keeps every omitted field, leaves exactly one record with
that name, and makes no change whatsoever to the tag table. -/
theorem C6_update_in_place (s : Session) (cat : String) (data : Fields)
    (failAt : Nat → Bool) (r : Rec) (pre post : List Rec) (nv : Value)
    (hcat : cat ∈ table_classes)
    (hname : data.lookup "name" = some nv)
    (hrows : s.current.rows cat = pre ++ r :: post)
    (hpre : ∀ x ∈ pre, x.fields.lookup "name" ≠ some nv)
    (hpost : ∀ x ∈ post, x.fields.lookup "name" ≠ some nv)
    (hr : r.fields.lookup "name" = some nv)
    (hpreid : ∀ x ∈ pre, x.id ≠ r.id)
    (hpostid : ∀ x ∈ post, x.id ≠ r.id)
    (hnodup : (data.map Prod.fst).Nodup) :
    (add_data_to_table s cat data true failAt).2 = AddOutcome.updated ∧
      (add_data_to_table s cat data true failAt).1.current.tags = s.current.tags ∧
      (add_data_to_table s cat data true failAt).1.current.rows cat =
        pre ++ (⟨r.id, data.foldl (fun fs kv => updateAssoc fs kv.1 kv.2) r.fields⟩ : Rec)
          :: post ∧
      (∀ k v, data.lookup k = some v →
        (data.foldl (fun fs kv => updateAssoc fs kv.1 kv.2) r.fields).lookup k = some v) ∧
      (∀ k, data.lookup k = none →
        (data.foldl (fun fs kv => updateAssoc fs kv.1 kv.2) r.fields).lookup k =
          r.fields.lookup k) ∧
      ((add_data_to_table s cat data true failAt).1.current.rows cat).countP
        (fun x => x.fields.lookup "name" == some nv) = 1 := by
  have heq := add_update s cat data failAt r pre post nv hcat hname hrows hpre hr hpreid hpostid
  have hrows' : (add_data_to_table s cat data true failAt).1.current.rows cat =
      pre ++ (⟨r.id, data.foldl (fun fs kv => updateAssoc fs kv.1 kv.2) r.fields⟩ : Rec)
        :: post := by
    rw [heq]; exact rows_setRows_self _ _ _
  refine ⟨by rw [heq], by rw [heq]; rfl, hrows',
    fun k v hkv => lookup_foldl_updateAssoc_some data r.fields k v hnodup hkv,
    fun k hk => lookup_foldl_updateAssoc_none data r.fields k hk, ?_⟩
  rw [hrows', List.countP_append,
    List.countP_eq_zero.mpr (fun x hx => by simpa [beq_iff_eq] using hpre x hx),
    List.countP_cons_of_pos _ _
      (by simpa [beq_iff_eq] using lookup_foldl_updateAssoc_some data r.fields "name" nv hnodup hname),
    List.countP_eq_zero.mpr (fun x hx => by simpa [beq_iff_eq] using hpost x hx)]

/-- C6 witness: overwriting "Lamp" (saved first with one description, then
with another and no image field) at concrete inputs. -/
theorem C6_witness :
    (add_data_to_table
        (add_data_to_table baseSession "items"
          [("name", Value.vStr "Lamp"), ("description", Value.vStr "dim"),
           ("tags", Value.vStr "light")] false (fun _ => false)).1
        "items" [("name", Value.vStr "Lamp"), ("description", Value.vStr "bright")]
        true (fun _ => false)).2 = AddOutcome.updated ∧
      (add_data_to_table
        (add_data_to_table baseSession "items"
          [("name", Value.vStr "Lamp"), ("description", Value.vStr "dim"),
           ("tags", Value.vStr "light")] false (fun _ => false)).1
        "items" [("name", Value.vStr "Lamp"), ("description", Value.vStr "bright")]
        true (fun _ => false)).1.current.tags =
        (add_data_to_table baseSession "items"
          [("name", Value.vStr "Lamp"), ("description", Value.vStr "dim"),
           ("tags", Value.vStr "light")] false (fun _ => false)).1.current.tags ∧
      (add_data_to_table
        (add_data_to_table baseSession "items"
          [("name", Value.vStr "Lamp"), ("description", Value.vStr "dim"),
           ("tags", Value.vStr "light")] false (fun _ => false)).1
        "items" [("name", Value.vStr "Lamp"), ("description", Value.vStr "bright")]
        true (fun _ => false)).1.current.rows "items" =
        [] ++ (⟨1, ([("name", Value.vStr "Lamp"), ("description", Value.vStr "bright")] : Fields).foldl
            (fun fs kv => updateAssoc fs kv.1 kv.2)
            [("name", Value.vStr "Lamp"), ("description", Value.vStr "dim"),
             ("tags", Value.vStr "light"), ("image_data", Value.vNull)]⟩ : Rec) :: [] := by
  have h := C6_update_in_place
    (add_data_to_table baseSession "items"
      [("name", Value.vStr "Lamp"), ("description", Value.vStr "dim"),
       ("tags", Value.vStr "light")] false (fun _ => false)).1
    "items" [("name", Value.vStr "Lamp"), ("description", Value.vStr "bright")]
    (fun _ => false)
    ⟨1, [("name", Value.vStr "Lamp"), ("description", Value.vStr "dim"),
         ("tags", Value.vStr "light"), ("image_data", Value.vNull)]⟩
    [] [] (Value.vStr "Lamp")
    (by decide) (by decide) (by decide) (by decide) (by decide) (by decide)
    (by decide) (by decide) (by decide)
  exact ⟨h.1, h.2.1, by rw [h.2.2.1]⟩

/-- C7: deleting an existing record leaves its tag rows untouched; once
the record is gone, `get_data_for_entry` on the name resolves the (now
dangling) tag row and returns `none` instead of raising; deleting again —
an absent name — is the reported "not found" no-op, not an error. -/
theorem C7_dangling_reference_safe (s : Session) (cat nv idStr : String)
    (r : Rec) (pre post : List Rec) (tpre tpost : List TagRow) (t : TagRow)
    (hcat : cat ∈ table_classes)
    (hrows : s.current.rows cat = pre ++ r :: post)
    (hpre : ∀ x ∈ pre, x.fields.lookup "name" ≠ some (Value.vStr nv))
    (hpost : ∀ x ∈ post, x.fields.lookup "name" ≠ some (Value.vStr nv))
    (hr : r.fields.lookup "name" = some (Value.vStr nv))
    (hpreid : ∀ x ∈ pre, x.id ≠ r.id)
    (hpostid : ∀ x ∈ post, x.id ≠ r.id)
    (htags : s.current.tags = tpre ++ t :: tpost)
    (htpre : ∀ u ∈ tpre, u.entry_name ≠ nv)
    (ht : t.entry_name = nv)
    (hloc : pySplit '/' t.entry_location = [cat, idStr])
    (hparse : textToId? idStr = some r.id) :
    (remove_entry s cat nv).2 = RemoveOutcome.removed ∧
      (remove_entry s cat nv).1.current.tags = s.current.tags ∧
      (remove_entry s cat nv).1.current.rows cat = pre ++ post ∧
      get_data_for_entry (remove_entry s cat nv).1 nv = none ∧
      remove_entry (remove_entry s cat nv).1 cat nv =
        ((remove_entry s cat nv).1, RemoveOutcome.notFound) := by
  have hfindr : (s.current.rows cat).find?
      (fun x => x.fields.lookup "name" == some (Value.vStr nv)) = some r := by
    rw [hrows]
    exact find?_middle (fun x hx => by simpa [beq_iff_eq] using hpre x hx)
      (by simpa [beq_iff_eq] using hr)
  have hnotin : r ∉ pre := fun hmem => hpre r hmem hr
  have hdel : deleteFirst r (s.current.rows cat) = pre ++ post := by
    rw [hrows]; exact deleteFirst_middle hnotin
  have heq : remove_entry s cat nv =
      (⟨s.current.setRows cat (pre ++ post), s.current.setRows cat (pre ++ post)⟩,
       RemoveOutcome.removed) := by
    rw [remove_entry, get_table_class_eq_some hcat]
    simp only [hfindr, hdel]
    rfl
  have hrows2 : (s.current.setRows cat (pre ++ post)).rows cat = pre ++ post :=
    rows_setRows_self _ _ _
  have hnone : (pre ++ post).find?
      (fun x => x.fields.lookup "name" == some (Value.vStr nv)) = none :=
    List.find?_eq_none.mpr (fun x hx => by
      rcases List.mem_append.mp hx with hx | hx
      · simpa [beq_iff_eq] using hpre x hx
      · simpa [beq_iff_eq] using hpost x hx)
  refine ⟨by rw [heq], by rw [heq]; rfl, by rw [heq]; exact hrows2, ?_, ?_⟩
  · rw [heq]
    show get_data_for_entry
      ⟨s.current.setRows cat (pre ++ post), s.current.setRows cat (pre ++ post)⟩ nv = none
    have htagfind : (s.current.setRows cat (pre ++ post)).tags.find?
        (fun u => u.entry_name == nv) = some t := by
      show s.current.tags.find? _ = some t
      rw [htags]
      exact find?_middle (fun u hu => by simpa [beq_iff_eq] using htpre u hu)
        (by simp [beq_iff_eq, ht])
    have hidnone : ((s.current.setRows cat (pre ++ post)).rows cat).find?
        (fun x => x.id = r.id) = none := by
      rw [hrows2]
      exact List.find?_eq_none.mpr (fun x hx => by
        simp only [decide_eq_true_eq]
        rcases List.mem_append.mp hx with hx | hx
        · exact hpreid x hx
        · exact hpostid x hx)
    rw [get_data_for_entry]
    simp only [htagfind, hloc, get_table_class_eq_some hcat, hparse, hidnone]
  · rw [heq]
    show remove_entry
        ⟨s.current.setRows cat (pre ++ post), s.current.setRows cat (pre ++ post)⟩ cat nv = _
    rw [remove_entry, get_table_class_eq_some hcat]
    have : (Session.mk (s.current.setRows cat (pre ++ post))
        (s.current.setRows cat (pre ++ post))).current.rows cat = pre ++ post := hrows2
    simp only [this, hnone]

/-- C7 witness: delete "Blade" from the duplicate-tag session and observe
the removed outcome, untouched tag table, dangling-but-graceful lookup, and
the not-found no-op on a second delete. -/
theorem C7_witness :
    (remove_entry dupTagSession "items" "Blade").2 = RemoveOutcome.removed ∧
      (remove_entry dupTagSession "items" "Blade").1.current.tags =
        dupTagSession.current.tags ∧
      (remove_entry dupTagSession "items" "Blade").1.current.rows "items" = [] ++ [] ∧
      get_data_for_entry (remove_entry dupTagSession "items" "Blade").1 "Blade" = none ∧
      remove_entry (remove_entry dupTagSession "items" "Blade").1 "items" "Blade" =
        ((remove_entry dupTagSession "items" "Blade").1, RemoveOutcome.notFound) :=
  C7_dangling_reference_safe dupTagSession "items" "Blade" "1" bladeRec [] []
    [] [⟨2, "Blade", "quests/2"⟩] ⟨1, "Blade", "items/1"⟩
    (by decide) (by decide) (by decide) (by decide) (by decide) (by decide)
    (by decide) (by decide) (by decide) (by decide) (by decide) (by decide)

/-- C8 (counterexample): with no World row, `add_world_map` does not
propagate: the `AttributeError` is caught and the function returns
normally with the session rolled back, and `veiw_world_map` returns `none`
rather than failing. -/
theorem C8_counterexample :
    add_world_map noWorldSession [137, 80, 78, 71] =
        (noWorldSession, MapOutcome.caught Exc.attributeError) ∧
      veiw_world_map noWorldSession = none := by decide

/-- C8 (amended): with no World row both map operations fail *silently* —
the write is swallowed (caught, no propagation, session unchanged) and the
read returns `none`; with the singleton present, `add_world_map` then
`veiw_world_map` round-trips the same bytes. -/
theorem C8_world_map_behaviour (s : Session) (img : List Nat) :
    (s.current.world = [] → s.current = s.committed →
      add_world_map s img = (s, MapOutcome.caught Exc.attributeError) ∧
        veiw_world_map s = none) ∧
    (∀ w ws, s.current.world = w :: ws →
      (add_world_map s img).2 = MapOutcome.ok ∧
        veiw_world_map (add_world_map s img).1 = some img) := by
  constructor
  · intro h1 h2
    constructor
    · rw [add_world_map, h1, rollback_eq_self h2]
    · rw [veiw_world_map, h1]
  · intro w ws h
    constructor
    · rw [add_world_map, h]
    · rw [add_world_map, h, veiw_world_map]
      rfl

/-- C8 witness: both halves of the amended statement at concrete sessions:
the world-less database and the fresh "Aldara" database with a PNG-like
payload. -/
theorem C8_witness :
    (add_world_map noWorldSession [1, 2] =
        (noWorldSession, MapOutcome.caught Exc.attributeError) ∧
      veiw_world_map noWorldSession = none) ∧
    ((add_world_map baseSession [137, 80, 78, 71]).2 = MapOutcome.ok ∧
      veiw_world_map (add_world_map baseSession [137, 80, 78, 71]).1 =
        some [137, 80, 78, 71]) :=
  ⟨(C8_world_map_behaviour noWorldSession [1, 2]).1 rfl rfl,
   (C8_world_map_behaviour baseSession [137, 80, 78, 71]).2 ⟨"Aldara", none⟩ [] rfl⟩

/-- C9 (counterexample): the all-categories sentinel of
`filter_tag_list_by_table` is the string "all_categories", not "all":
passing "all" on labels that both have matching tag rows returns the empty
list (nothing has category component "all"), where the claim expects every
matched label. -/
theorem C9_counterexample :
    filter_tag_list_by_table twoTagSession ["x", "y"] "all" = [] ∧
      filter_tag_list_by_table twoTagSession ["x", "y"] "all_categories" = ["x", "y"] := by
  decide

/-- C9 (amended): with the sentinel "all_categories" the filter returns
every matched label; with a category name it returns exactly the matched
labels whose `entry_location` category component equals it — for labels
resolving to `items` and `quests`, filtering by "items" keeps only the
first. -/
theorem C9_filter_correct (s : Session) (x y lx ly : String) (i j : Nat)
    (htags : s.current.tags = [⟨i, x, lx⟩, ⟨j, y, ly⟩])
    (hlx : (pySplit '/' lx).headD "" = "items")
    (hly : (pySplit '/' ly).headD "" = "quests") :
    filter_tag_list_by_table s [x, y] "items" = [x] ∧
      filter_tag_list_by_table s [x, y] "all_categories" = [x, y] := by
  have hlx' : (pySplit '/' lx).head?.getD "" = "items" := by
    rw [← List.headD_eq_head?]; exact hlx
  have hly' : (pySplit '/' ly).head?.getD "" = "quests" := by
    rw [← List.headD_eq_head?]; exact hly
  constructor
  · rw [filter_tag_list_by_table, if_neg (by decide)]
    rw [htags]
    simp [hlx', hly']
  · rw [filter_tag_list_by_table, if_pos rfl, htags]
    simp

/-- C9 witness: the amended filter behaviour at the concrete two-row tag
table. -/
theorem C9_witness :
    filter_tag_list_by_table twoTagSession ["x", "y"] "items" = ["x"] ∧
      filter_tag_list_by_table twoTagSession ["x", "y"] "all_categories" = ["x", "y"] :=
  C9_filter_correct twoTagSession "x" "y" "items/1" "quests/2" 1 2 rfl
    (by decide) (by decide)

/-- C10: both resolution paths read only the first tag row (in storage
order) whose `entry_name` matches: whatever rows follow, `get_data_for_entry`
returns the record designated by that first row and `get_tag_location`
returns its category component. -/
theorem C10_first_tag_row_wins (s : Session) (nm cat idStr : String)
    (tpre tpost : List TagRow) (t : TagRow) (rpre rpost : List Rec) (r : Rec)
    (htags : s.current.tags = tpre ++ t :: tpost)
    (htpre : ∀ u ∈ tpre, u.entry_name ≠ nm)
    (ht : t.entry_name = nm)
    (hloc : pySplit '/' t.entry_location = [cat, idStr])
    (hcat : cat ∈ table_classes)
    (hparse : textToId? idStr = some r.id)
    (hrows : s.current.rows cat = rpre ++ r :: rpost)
    (hrpre : ∀ x ∈ rpre, x.id ≠ r.id) :
    get_data_for_entry s nm = some (recDict r) ∧
      get_tag_location s nm = some cat := by
  have htagfind : s.current.tags.find? (fun u => u.entry_name == nm) = some t := by
    rw [htags]
    exact find?_middle (fun u hu => by simpa [beq_iff_eq] using htpre u hu)
      (by simp [beq_iff_eq, ht])
  have hrowfind : (s.current.rows cat).find? (fun x => x.id = r.id) = some r := by
    rw [hrows]
    refine find?_middle (fun x hx => ?_) (by simp)
    simp only [decide_eq_true_eq]
    exact hrpre x hx
  constructor
  · rw [get_data_for_entry]
    simp only [htagfind, hloc, get_table_class_eq_some hcat, hparse, hrowfind]
  · rw [get_tag_location]
    simp only [htagfind, hloc]
    rfl

/-- C10 witness: with "Blade" tag-indexed twice (first `items/1`, then
`quests/2`), both lookups follow the first row: the items record and the
category "items". -/
theorem C10_witness :
    get_data_for_entry dupTagSession "Blade" = some (recDict bladeRec) ∧
      get_tag_location dupTagSession "Blade" = some "items" :=
  C10_first_tag_row_wins dupTagSession "Blade" "items" "1"
    [] [⟨2, "Blade", "quests/2"⟩] ⟨1, "Blade", "items/1"⟩ [] [] bladeRec
    (by decide) (by decide) (by decide) (by decide) (by decide) (by decide)
    (by decide) (by decide)

end WorldBuilder
